import Mathlib

/-!
Shallow embedding of `generate_complete_dump.py` (the single source file of the
repository) and verification of its specification claims.

Modelling conventions:
- The external database collaborator (a `psql` subprocess) is modelled as an
  oracle `db : String → Option String` mapping the full query text to `none`
  when the subprocess invocation fails (`subprocess.CalledProcessError`,
  including connection errors, which is what the `except` branch of
  `run_sql_query` catches) and to `some rawStdout` when it succeeds.
- Python `str.strip()` is modelled by `strip` below (removing leading and
  trailing whitespace characters); Python `str.split('\n')` by `splitNl`;
  Python `str.upper()` by `upper`.  These are implemented structurally over
  the character list of the string so that concrete runs reduce in the kernel.
- `main` is modelled by `mainRun`, returning `none` when the program returns
  without writing the output file and `some lines` when it writes the file
  whose content is the lines joined by newlines (`fileContent`).
-/

set_option maxRecDepth 100000

/-- Whitespace test used by `strip` (space, tab, carriage return, newline). -/
def isWs (c : Char) : Bool := c.isWhitespace

/-- Model of Python `str.strip()`: drop leading and trailing whitespace. -/
def strip (s : String) : String :=
  String.mk (((s.data.dropWhile isWs).reverse.dropWhile isWs).reverse)

/-- The newline character. -/
def nlChar : Char := '\n'

/-- Split a character list on newline characters (helper for `splitNl`). -/
def splitNlChars : List Char → List (List Char)
  | [] => [[]]
  | x :: xs =>
    if x = nlChar then [] :: splitNlChars xs
    else
      match splitNlChars xs with
      | [] => [[x]]
      | g :: gs => (x :: g) :: gs

/-- Model of Python `s.split('\n')`. -/
def splitNl (s : String) : List String := (splitNlChars s.data).map String.mk

/-- Model of Python `str.upper()` (ASCII uppercasing, as used on table names). -/
def upper (s : String) : String := String.mk (s.data.map Char.toUpper)

/-- Source: the oracle type standing for the `psql` subprocess invocation. -/
def Oracle : Type := String → Option String

/-- Source `run_sql_query(query)`: on success return `result.stdout.strip()`,
on `CalledProcessError` print a diagnostic and return `None`. -/
def run_sql_query (db : Oracle) (query : String) : Option String :=
  match db query with
  | none => none
  | some out => some (strip out)

/-- Python truthiness of an optional string result: `None` and the empty
string are falsy; every caller of `run_sql_query` tests exactly this. -/
def truthy : Option String → Bool
  | none => false
  | some s => s != ""

/-- Source idiom `[t.strip() for t in s.split('\n') if t.strip()]`. -/
def parseLines (s : String) : List String :=
  ((splitNl s).map strip).filter (fun t => t != "")

/-- Source: the cast suffix `'::text'` tested with `col.endswith`. -/
def castSuffix : String := "::text"

/-- Model of Python `col.endswith('::text')`. -/
def hasCastSuffix (col : String) : Bool := List.isSuffixOf castSuffix.data col.data

/-- Source: the special-cased column names `['id', 'created_at', 'updated_at']`. -/
def specialCols : List String := ["id", "created_at", "updated_at"]

/-- Source: the direct literal-quote expression `f"quote_literal({col})"`. -/
def quoteForm (col : String) : String := "quote_literal(" ++ col ++ ")"

/-- Source: the cast-then-coalesce expression
`f"COALESCE(quote_literal({col}::text), 'NULL')"`. -/
def coalesceForm (col : String) : String :=
  "COALESCE(quote_literal(" ++ col ++ "::text), \x27NULL\x27)"

/-- Source, body of the loop in `generate_insert_statements`:
`if col.endswith('::text') or col in ['id', 'created_at', 'updated_at']`. -/
def formatColumn (col : String) : String :=
  if hasCastSuffix col = true ∨ col ∈ specialCols then quoteForm col
  else coalesceForm col

/-- Source: the accumulated `column_list` of `generate_insert_statements`. -/
def column_list (columns : List String) : List String := columns.map formatColumn

/-- Source: the f-string query built in `generate_insert_statements`. -/
def insertQuery (table_name : String) (columns : List String) : String :=
  "\n    SELECT \x27INSERT INTO " ++ table_name ++ " VALUES (\x27 ||\n           " ++
    String.intercalate " || \x27,\x27 || " (column_list columns) ++
    " ||\n           \x27);\x27 as insert_statement\n    FROM " ++ table_name ++ ";\n    "

/-- Source `generate_insert_statements(table_name, columns)`: build the query
and return `run_sql_query(query)` (the `print` call is I/O, not modelled). -/
def generate_insert_statements (db : Oracle) (table_name : String)
    (columns : List String) : Option String :=
  run_sql_query db (insertQuery table_name columns)

/-- Source: the `tables_query` triple-quoted literal in `main`. -/
def tables_query : String :=
  "\n    SELECT table_name \n    FROM information_schema.tables \n    WHERE table_schema = \x27public\x27 \n    AND table_type = \x27BASE TABLE\x27\n    ORDER BY table_name;\n    "

/-- Source: the per-table `columns_query` f-string literal in `main`. -/
def columns_query (table : String) : String :=
  "\n        SELECT column_name \n        FROM information_schema.columns \n        WHERE table_name = \x27" ++
    table ++ "\x27 \n        ORDER BY ordinal_position;\n        "

/-- Source: `f"SELECT COUNT(*) FROM {table};"`. -/
def count_query (table : String) : String := "SELECT COUNT(*) FROM " ++ table ++ ";"

/-- Source: the initial `dump_content` header list in `main`. -/
def headerLines : List String :=
  ["-- COMPLETE PRODUCTION DATABASE DUMP",
   "-- Generated: August 27, 2025",
   "-- Contains ALL production data",
   "",
   "-- Disable foreign key checks for import",
   "SET session_replication_role = replica;",
   ""]

/-- Source: the banner rule line, `"-- "` followed by 76 equals signs. -/
def ruleLine : String :=
  "-- ============================================================================"

/-- Source: the footer list appended by `dump_content.extend` in `main`. -/
def footerLines : List String :=
  [ruleLine,
   "-- Re-enable foreign key checks",
   ruleLine,
   "SET session_replication_role = DEFAULT;",
   "",
   "-- Import complete! All production data has been restored."]

/-- Source: `row_count = count_result.strip() if count_result else "0"`. -/
def rowCountStr : Option String → String
  | none => "0"
  | some s => if s = "" then "0" else strip s

/-- Source: the banner comment line `f"-- {table.upper()} ({row_count} records)"`. -/
def bannerLine (table row_count : String) : String :=
  "-- " ++ upper table ++ " (" ++ row_count ++ " records)"

/-- Source: the excluded table name literal `'sessions'`. -/
def exclName : String := "sessions"

/-- Source, lines appended from the insert-statement result: `if insert_statements:`
then for each `stmt` in `insert_statements.split('\n')`, append `stmt.strip()`
when `stmt.strip()` is non-empty. -/
def stmtLines (db : Oracle) (table : String) (columns : List String) : List String :=
  match generate_insert_statements db table columns with
  | none => []
  | some s => if s = "" then [] else parseLines s

/-- Source, one iteration of the `for table in tables` loop body after the
`sessions` test: fetch columns (`continue` with no output on falsy result),
fetch the row count, append the three banner lines, append the non-blank
stripped insert-statement lines, append one blank separator line. -/
def tableSection (db : Oracle) (table : String) : List String :=
  match run_sql_query db (columns_query table) with
  | none => []
  | some cs =>
    if cs = "" then []
    else
      ruleLine :: bannerLine table (rowCountStr (run_sql_query db (count_query table))) ::
        ruleLine :: (stmtLines db table (parseLines cs) ++ [""])

/-- Source: the whole `for table in tables` loop, with
`if table == 'sessions': continue` skipping the excluded table. -/
def processTables (db : Oracle) (tables : List String) : List String :=
  tables.flatMap (fun table => if table = exclName then [] else tableSection db table)

/-- Source `main()`: run the catalog query; on falsy result print a message
and return without writing the file (`none`); otherwise parse the table list,
build header, per-table sections and footer, and write the file (`some`). -/
def mainRun (db : Oracle) : Option (List String) :=
  match run_sql_query db tables_query with
  | none => none
  | some s =>
    if s = "" then none
    else some (headerLines ++ processTables db (parseLines s) ++ footerLines)

/-- Source: `f.write('\n'.join(dump_content))`, the file content written for a
run that produces the line list `lines`. -/
def fileContent (lines : List String) : String := String.intercalate "\n" lines

/-- Modelled from the spec: the database collaborator's value semantics are not
part of this repository (spec §1, §6 and glossary: literal-quoting is "the
database-provided conversion of an arbitrary value into an escaped text form").
A SQL value is `none` (SQL NULL) or `some v` where `v` is its text rendering. -/
abbrev SqlVal : Type := Option String

/-- The SQL quote character, written once here. -/
def sqlQuoteChar : Char := '\x27'

/-- Escape embedded quotes by doubling them (helper for `quote_literal`). -/
def escChars : List Char → List Char
  | [] => []
  | c :: cs => if c = sqlQuoteChar then c :: c :: escChars cs else c :: escChars cs

/-- Modelled from the spec: the collaborator's `quote_literal` function yields
SQL NULL on a NULL input and an escaped quoted string literal otherwise. -/
def quote_literal : SqlVal → SqlVal
  | none => none
  | some v => some (String.mk (sqlQuoteChar :: escChars v.data ++ [sqlQuoteChar]))

/-- Modelled from the spec: SQL `COALESCE` of two arguments returns the first
non-null one. -/
def sqlCoalesce (a b : SqlVal) : SqlVal :=
  match a with
  | none => b
  | some v => some v

/-- Modelled from the spec: casting a value to text keeps its text rendering
and its NULL-ness. -/
def castText (v : SqlVal) : SqlVal := v

/-- Modelled from the spec: SQL string concatenation `||` is NULL-propagating,
so one NULL operand nullifies the whole concatenation (hence the whole
generated `INSERT` line for that row). -/
def sqlConcat (a b : SqlVal) : SqlVal :=
  match a, b with
  | some x, some y => some (x ++ y)
  | _, _ => none

/-- The two per-column formatting expressions the source can emit. -/
inductive ColExpr : Type
  | quoteLit : ColExpr
  | coalesceQuoteCast : ColExpr

/-- The source's choice of expression for a column (the `if` of
`generate_insert_statements`, shared verbatim with `formatColumn`). -/
def chooseExpr (col : String) : ColExpr :=
  if hasCastSuffix col = true ∨ col ∈ specialCols then ColExpr.quoteLit
  else ColExpr.coalesceQuoteCast

/-- Rendering of each expression as SQL text, as the source writes it. -/
def renderColExpr (col : String) : ColExpr → String
  | ColExpr.quoteLit => quoteForm col
  | ColExpr.coalesceQuoteCast => coalesceForm col

/-- Modelled from the spec: the collaborator's evaluation of the two emitted
expressions on the column's value; `COALESCE(quote_literal(col::text), 'NULL')`
falls back to the four-character text `NULL` (the value of the SQL literal
`'NULL'`), which the surrounding concatenation then embeds unquoted. -/
def evalColExpr (v : SqlVal) : ColExpr → SqlVal
  | ColExpr.quoteLit => quote_literal v
  | ColExpr.coalesceQuoteCast => sqlCoalesce (quote_literal (castText v)) (some ("NULL"))

/-- The literal text the collaborator produces for column `col` holding value
`v` inside a generated `INSERT` statement. -/
def colLiteral (col : String) (v : SqlVal) : SqlVal :=
  evalColExpr v (chooseExpr col)

/-- A quoted empty string literal, two quote characters. -/
def emptyQuoted : String := "\x27\x27"

/-- Modelled from the spec: the footer sequence exactly as claim C6 words it
("a rule-line comment, a comment re-enabling integrity enforcement, the
statement `SET session_replication_role = DEFAULT;`, a blank line, and a
completion comment — with no other lines in between"): five lines. -/
def claimedFooterC6 : List String :=
  [ruleLine,
   "-- Re-enable foreign key checks",
   "SET session_replication_role = DEFAULT;",
   "",
   "-- Import complete! All production data has been restored."]

/-- Concrete oracle: the catalog query succeeds with empty output (a schema
with zero base tables); every other invocation fails. -/
def dbNoTables : Oracle := fun q => if q = tables_query then some ("") else none

/-- Concrete oracle: every invocation fails. -/
def dbFailAll : Oracle := fun _ => none

/-- Concrete oracle: the catalog lists only the excluded table `sessions`. -/
def dbSessionsOnly : Oracle := fun q => if q = tables_query then some (exclName) else none

/-- Concrete oracle: two tables `alpha` and `beta` with one column each; count
and insert queries fail. -/
def dbTwoTables : Oracle := fun q =>
  if q = tables_query then some ("alpha\nbeta")
  else if q = columns_query ("alpha") then some ("x")
  else if q = columns_query ("beta") then some ("y")
  else none

/-- Concrete oracle: one table `t`, one column `c`, count query failing, and an
insert-statement result whose second line carries leading whitespace. -/
def dbPadded : Oracle := fun q =>
  if q = tables_query then some ("t")
  else if q = columns_query ("t") then some ("c")
  else if q = insertQuery ("t") (["c"]) then
    some ("INSERT INTO t VALUES (1);\n  INSERT INTO t VALUES (2);")
  else none

/-- Concrete oracle: one table `t` with one column `c` and zero rows, so the
insert-statement query succeeds with empty output. -/
def dbZeroRows : Oracle := fun q =>
  if q = tables_query then some ("t")
  else if q = columns_query ("t") then some ("c")
  else if q = count_query ("t") then some ("0")
  else if q = insertQuery ("t") (["c"]) then some ("")
  else none

/-- Concrete oracle: every query succeeds but returns only whitespace. -/
def dbBlankish : Oracle := fun q => if q = tables_query then some ("  \n ") else some (" ")

/-- The dump produced by `dbPadded` (used when refuting claim C7). -/
def outPadded : List String :=
  headerLines ++
    [ruleLine, bannerLine ("t") ("0"), ruleLine,
     "INSERT INTO t VALUES (1);", "INSERT INTO t VALUES (2);", ""] ++ footerLines

theorem truthy_some_iff (o : Option String) :
    truthy o = true ↔ ∃ s, o = some s ∧ s ≠ "" := by
  cases o with
  | none => simp [truthy]
  | some s => simp [truthy, bne_iff_ne]

theorem processTables_eq_filter_flatMap (db : Oracle) (ts : List String) :
    processTables db ts =
      (ts.filter (fun t => t != exclName)).flatMap (tableSection db) := by
  induction ts with
  | nil => rfl
  | cons t ts ih =>
    by_cases h : t = exclName
    · simp [processTables, List.flatMap_cons, List.filter_cons, h] at ih ⊢
      exact ih
    · simp [processTables, List.flatMap_cons, List.filter_cons, h, bne_iff_ne] at ih ⊢
      exact ih

theorem tableSection_eq (db : Oracle) (table cs : String)
    (hc : run_sql_query db (columns_query table) = some cs) (hcs : cs ≠ "") :
    tableSection db table =
      ruleLine :: bannerLine table (rowCountStr (run_sql_query db (count_query table))) ::
        ruleLine :: (stmtLines db table (parseLines cs) ++ [""]) := by
  unfold tableSection
  rw [hc]
  simp [hcs]

theorem tableSection_eq_nil_of_fail (db : Oracle) (t : String)
    (h : run_sql_query db (columns_query t) = none) : tableSection db t = [] := by
  unfold tableSection
  rw [h]

theorem tableSection_eq_nil_of_empty (db : Oracle) (t : String)
    (h : run_sql_query db (columns_query t) = some ("")) : tableSection db t = [] := by
  unfold tableSection
  rw [h]
  simp

theorem mainRun_eq (db : Oracle) (s : String)
    (h : run_sql_query db tables_query = some s) (hs : s ≠ "") :
    mainRun db = some (headerLines ++ processTables db (parseLines s) ++ footerLines) := by
  unfold mainRun
  rw [h]
  simp [hs]

theorem mainRun_eq_none_of_fail (db : Oracle)
    (h : run_sql_query db tables_query = none) : mainRun db = none := by
  unfold mainRun
  rw [h]

theorem mainRun_eq_none_of_empty (db : Oracle)
    (h : run_sql_query db tables_query = some ("")) : mainRun db = none := by
  unfold mainRun
  rw [h]
  simp

theorem formatColumn_eq_render (col : String) :
    formatColumn col = renderColExpr col (chooseExpr col) := by
  unfold formatColumn chooseExpr
  split <;> rfl

theorem quoteForm_ne_coalesceForm (col : String) : quoteForm col ≠ coalesceForm col := by
  intro h
  have hl := congrArg String.length h
  simp only [quoteForm, coalesceForm, String.length_append] at hl
  have e1 : ("quote_literal(" : String).length = 14 := by decide
  have e2 : (")" : String).length = 1 := by decide
  have e3 : ("COALESCE(quote_literal(" : String).length = 23 := by decide
  have e4 : ("::text), \x27NULL\x27)" : String).length = 16 := by decide
  rw [e1, e2, e3, e4] at hl
  omega

theorem run_agree (db db2 : Oracle) (q : String) (h : db2 q = db q) :
    run_sql_query db2 q = run_sql_query db q := by
  unfold run_sql_query
  rw [h]

theorem run_sql_query_some (db : Oracle) (q s : String) (h : db q = some s) :
    run_sql_query db q = some (strip s) := by
  unfold run_sql_query
  rw [h]

theorem run_sql_query_none (db : Oracle) (q : String) (h : db q = none) :
    run_sql_query db q = none := by
  unfold run_sql_query
  rw [h]

theorem stmtLines_some (db : Oracle) (table : String) (columns : List String)
    (s : String) (h : generate_insert_statements db table columns = some s)
    (hs : s ≠ "") : stmtLines db table columns = parseLines s := by
  unfold stmtLines
  rw [h]
  show (if s = "" then ([] : List String) else parseLines s) = parseLines s
  rw [if_neg hs]

theorem stmtLines_empty (db : Oracle) (table : String) (columns : List String)
    (h : generate_insert_statements db table columns = some ("")) :
    stmtLines db table columns = [] := by
  unfold stmtLines
  rw [h]
  show (if ("" : String) = "" then ([] : List String) else parseLines "") = []
  rw [if_pos rfl]

/-- C3: if the initial table-listing round trip fails (the `psql` invocation
raises, i.e. the oracle returns `none`, which covers a non-zero exit status and
connection errors alike), `main` reports the error and returns without creating
or overwriting `complete_production_dump.sql` (`mainRun db = none`); no
per-table work is performed, since `mainRun` returns before the table loop. -/
theorem C3_catalog_failure_aborts (db : Oracle)
    (h : run_sql_query db tables_query = none) : mainRun db = none :=
  mainRun_eq_none_of_fail db h

/-- Witness for C3 at the all-failing oracle. -/
theorem C3_catalog_failure_aborts_witness :
    run_sql_query dbFailAll tables_query = none ∧ mainRun dbFailAll = none :=
  ⟨rfl, C3_catalog_failure_aborts dbFailAll rfl⟩

/-- C2 counterexample: a run whose catalog query succeeds with empty output —
exactly what a schema with zero base tables produces — is treated as a failure
by the truthiness test, so no output file is written at all, refuting the
claim that with zero tables the file is written with the header directly
followed by the footer. -/
theorem C2_counterexample : mainRun dbNoTables = none := by decide

/-- C2 (amended): every run that does write the output file produces the fixed
header block, then the table sections, then the fixed footer block, and when
no table section is emitted (for example when every listed table is the
excluded one) the header is directly followed by the footer; a zero-table
catalog result, however, aborts the run without writing any file. -/
theorem C2_header_footer (db : Oracle) (out : List String)
    (h : mainRun db = some out) :
    (∃ mid, out = headerLines ++ mid ++ footerLines) ∧
    (∀ s, run_sql_query db tables_query = some s → s ≠ "" →
      processTables db (parseLines s) = [] → out = headerLines ++ footerLines) := by
  cases hq : run_sql_query db tables_query with
  | none =>
    rw [mainRun_eq_none_of_fail db hq] at h
    exact absurd h (by simp)
  | some s0 =>
    by_cases hs0 : s0 = ""
    · subst hs0
      rw [mainRun_eq_none_of_empty db hq] at h
      exact absurd h (by simp)
    · rw [mainRun_eq db s0 hq hs0] at h
      have hout : out = headerLines ++ processTables db (parseLines s0) ++ footerLines := by
        injection h with h2
        exact h2.symm
      refine ⟨⟨processTables db (parseLines s0), hout⟩, ?_⟩
      intro s hsq hs hempty
      injection hsq with hss
      subst hss
      rw [hempty] at hout
      simpa using hout

/-- Witness for the amended C2 at an oracle whose catalog lists only the
excluded table, so that the written file is header directly followed by
footer. -/
theorem C2_header_footer_witness :
    mainRun dbSessionsOnly = some (headerLines ++ footerLines) ∧
    ((∃ mid, headerLines ++ footerLines = headerLines ++ mid ++ footerLines) ∧
     (∀ s, run_sql_query dbSessionsOnly tables_query = some s → s ≠ "" →
       processTables dbSessionsOnly (parseLines s) = [] →
       headerLines ++ footerLines = headerLines ++ footerLines)) :=
  ⟨by decide, C2_header_footer dbSessionsOnly (headerLines ++ footerLines) (by decide)⟩

/-- C6 counterexample: the written file's footer contains a second rule-line
comment between the re-enable comment and the `SET` statement, so the
five-line sequence the claim asserts (`claimedFooterC6`) is not a suffix of
any written dump; shown here on a concrete run. -/
theorem C6_counterexample :
    mainRun dbSessionsOnly = some (headerLines ++ footerLines) ∧
    List.isSuffixOf claimedFooterC6 (headerLines ++ footerLines) = false := by decide

/-- C6 (amended): every run that writes the output file ends with exactly the
six-line footer `footerLines`: a rule-line comment, the re-enabling comment, a
second rule-line comment, the statement `SET session_replication_role =
DEFAULT;`, a blank line, and the completion comment, with no other lines in
between. -/
theorem C6_footer (db : Oracle) (out : List String) (h : mainRun db = some out) :
    ∃ v, out = v ++ footerLines := by
  cases hq : run_sql_query db tables_query with
  | none =>
    rw [mainRun_eq_none_of_fail db hq] at h
    exact absurd h (by simp)
  | some s0 =>
    by_cases hs0 : s0 = ""
    · subst hs0
      rw [mainRun_eq_none_of_empty db hq] at h
      exact absurd h (by simp)
    · rw [mainRun_eq db s0 hq hs0] at h
      injection h with h2
      exact ⟨headerLines ++ processTables db (parseLines s0), h2.symm⟩

/-- Witness for the amended C6 on a concrete written file. -/
theorem C6_footer_witness :
    ∃ v, headerLines ++ footerLines = v ++ footerLines :=
  C6_footer dbSessionsOnly (headerLines ++ footerLines) (by decide)

/-- C10: a collaborator round trip that succeeds but returns empty or
whitespace-only output is indistinguishable from an invocation failure:
`run_sql_query` returns the stripped standard output and every caller tests
only its truthiness, so both cases make `truthy` false; consequently a table
whose columns query succeeds with whitespace-only output is skipped exactly as
if the query had failed (empty section either way), and a whitespace-only
table list aborts the run exactly as a failed catalog query does (`none`
either way, no file written). -/
theorem C10_blank_indistinguishable :
    (∀ (db : Oracle) (q s : String), db q = some s → strip s = "" →
      truthy (run_sql_query db q) = false) ∧
    (∀ (db : Oracle) (q : String), db q = none → truthy (run_sql_query db q) = false) ∧
    (∀ (db : Oracle) (t s : String), db (columns_query t) = some s → strip s = "" →
      tableSection db t = []) ∧
    (∀ (db : Oracle) (t : String), db (columns_query t) = none → tableSection db t = []) ∧
    (∀ (db : Oracle) (s : String), db tables_query = some s → strip s = "" →
      mainRun db = none) ∧
    (∀ (db : Oracle), db tables_query = none → mainRun db = none) := by
  refine ⟨?_, ?_, ?_, ?_, ?_, ?_⟩
  · intro db q s h hs
    rw [run_sql_query_some db q s h, hs]
    rfl
  · intro db q h
    rw [run_sql_query_none db q h]
    rfl
  · intro db t s h hs
    apply tableSection_eq_nil_of_empty
    rw [run_sql_query_some db _ s h, hs]
  · intro db t h
    exact tableSection_eq_nil_of_fail db t (run_sql_query_none db _ h)
  · intro db s h hs
    apply mainRun_eq_none_of_empty
    rw [run_sql_query_some db _ s h, hs]
  · intro db h
    exact mainRun_eq_none_of_fail db (run_sql_query_none db _ h)

/-- Witness for C10: an oracle answering every query with whitespace-only
output aborts the run at the catalog step and skips the per-table step. -/
theorem C10_blank_indistinguishable_witness :
    (dbBlankish tables_query = some ("  \n ") ∧ strip ("  \n ") = "" ∧
      mainRun dbBlankish = none) ∧
    (dbBlankish (columns_query ("users")) = some (" ") ∧
      tableSection dbBlankish ("users") = []) :=
  ⟨⟨by decide, by decide,
     C10_blank_indistinguishable.2.2.2.2.1 dbBlankish ("  \n ") (by decide) (by decide)⟩,
   ⟨by decide,
     C10_blank_indistinguishable.2.2.1 dbBlankish ("users") (" ") (by decide) (by decide)⟩⟩

/-- C5: in the insert-statement builder, every column named `id`, `created_at`
or `updated_at` and every column ending in `::text` is formatted with the
direct literal-quote expression `quote_literal(col)` and never with the
cast-then-coalesce expression, while every other column is formatted with
`COALESCE(quote_literal(col::text), 'NULL')`; `column_list` is exactly the map
of `formatColumn` over the column list passed in. -/
theorem C5_column_formatting (columns : List String) (col : String)
    (hmem : col ∈ columns) :
    column_list columns = columns.map formatColumn ∧
    ((hasCastSuffix col = true ∨ col ∈ specialCols) →
      formatColumn col = quoteForm col ∧ formatColumn col ≠ coalesceForm col) ∧
    (¬ (hasCastSuffix col = true ∨ col ∈ specialCols) →
      formatColumn col = coalesceForm col) := by
  refine ⟨rfl, ?_, ?_⟩
  · intro h
    constructor
    · unfold formatColumn
      rw [if_pos h]
    · unfold formatColumn
      rw [if_pos h]
      exact quoteForm_ne_coalesceForm col
  · intro h
    unfold formatColumn
    rw [if_neg h]

/-- Witness for C5 on the column list `["id", "name"]` at column `id`. -/
theorem C5_column_formatting_witness :
    (("id" : String) ∈ (["id", "name"] : List String)) ∧
    (column_list (["id", "name"]) = (["id", "name"] : List String).map formatColumn ∧
     ((hasCastSuffix ("id") = true ∨ ("id" : String) ∈ specialCols) →
       formatColumn ("id") = quoteForm ("id") ∧
       formatColumn ("id") ≠ coalesceForm ("id")) ∧
     (¬ (hasCastSuffix ("id") = true ∨ ("id" : String) ∈ specialCols) →
       formatColumn ("id") = coalesceForm ("id"))) :=
  ⟨by decide, C5_column_formatting (["id", "name"]) ("id") (by decide)⟩

/-- C4 counterexample: the special-cased column `created_at` is formatted with
the direct `quote_literal(created_at)` and no COALESCE fallback, so on a NULL
value the collaborator's quoting yields SQL NULL — which nullifies the whole
concatenated statement — and not the unquoted keyword `NULL` that the claim
asserts for every column "regardless of whether the column is one of the
special-cased names". -/
theorem C4_counterexample :
    colLiteral ("created_at") none = none ∧
    ¬ colLiteral ("created_at") none = some ("NULL") := by decide

/-- C4 (amended): for every column that is not special-cased (not named `id`,
`created_at` or `updated_at` and not ending in `::text`), a NULL database
value produces the unquoted keyword `NULL` and never a quoted empty string;
for the special-cased columns a NULL value instead nullifies `quote_literal`
and thereby the whole concatenated statement (NULL-propagating `||`). -/
theorem C4_null_literal (col : String)
    (h : ¬ (hasCastSuffix col = true ∨ col ∈ specialCols)) :
    colLiteral col none = some ("NULL") ∧
    colLiteral col none ≠ some (emptyQuoted) ∧
    (∀ col2, (hasCastSuffix col2 = true ∨ col2 ∈ specialCols) →
      colLiteral col2 none = none ∧
      ∀ pre, sqlConcat pre (colLiteral col2 none) = none) := by
  refine ⟨?_, ?_, ?_⟩
  · unfold colLiteral chooseExpr
    rw [if_neg h]
    rfl
  · unfold colLiteral chooseExpr
    rw [if_neg h]
    decide
  · intro col2 h2
    constructor
    · unfold colLiteral chooseExpr
      rw [if_pos h2]
      rfl
    · intro pre
      unfold colLiteral chooseExpr
      rw [if_pos h2]
      cases pre <;> rfl

/-- Witness for the amended C4 at the ordinary column `name`. -/
theorem C4_null_literal_witness :
    (¬ (hasCastSuffix ("name") = true ∨ ("name" : String) ∈ specialCols)) ∧
    (colLiteral ("name") none = some ("NULL") ∧
     colLiteral ("name") none ≠ some (emptyQuoted) ∧
     (∀ col2, (hasCastSuffix col2 = true ∨ col2 ∈ specialCols) →
       colLiteral col2 none = none ∧
       ∀ pre, sqlConcat pre (colLiteral col2 none) = none)) :=
  ⟨by decide, C4_null_literal ("name") (by decide)⟩

/-- C7 counterexample: on a run whose insert-statement round trip returns a
text whose second line carries leading whitespace, that non-blank line is a
line of the returned text yet is absent from the dump — the code appends
`stmt.strip()`, not the line verbatim — while its stripped form is present;
this refutes "appended to the dump verbatim (character for character,
unmodified)". -/
theorem C7_counterexample :
    mainRun dbPadded = some outPadded ∧
    run_sql_query dbPadded (insertQuery ("t") (["c"])) =
      some ("INSERT INTO t VALUES (1);\n  INSERT INTO t VALUES (2);") ∧
    ("  INSERT INTO t VALUES (2);" ∈
      splitNl ("INSERT INTO t VALUES (1);\n  INSERT INTO t VALUES (2);")) ∧
    strip ("  INSERT INTO t VALUES (2);") ≠ "" ∧
    ¬ ("  INSERT INTO t VALUES (2);" ∈ outPadded) ∧
    ("INSERT INTO t VALUES (2);" ∈ outPadded) := by decide

/-- C7 (amended): for every table whose insert-statement round trip returns
text, each line of that text with non-blank stripped form is appended to the
dump after stripping its leading and trailing whitespace (not verbatim), blank
lines are not appended, and the table's section ends with one blank separator
line after the statement lines. -/
theorem C7_appended_stripped (db : Oracle) (table : String) (columns : List String)
    (s : String) (h : generate_insert_statements db table columns = some s)
    (hs : s ≠ "") :
    stmtLines db table columns = ((splitNl s).map strip).filter (fun l => l != "") ∧
    (∀ cs, run_sql_query db (columns_query table) = some cs → cs ≠ "" →
      tableSection db table = ruleLine ::
        bannerLine table (rowCountStr (run_sql_query db (count_query table))) :: ruleLine ::
        (stmtLines db table (parseLines cs) ++ [""])) := by
  constructor
  · rw [stmtLines_some db table columns s h hs]
    rfl
  · intro cs hc hcs
    exact tableSection_eq db table cs hc hcs

/-- Witness for the amended C7 at the padded-output oracle. -/
theorem C7_appended_stripped_witness :
    (generate_insert_statements dbPadded ("t") (["c"]) =
       some ("INSERT INTO t VALUES (1);\n  INSERT INTO t VALUES (2);") ∧
     ("INSERT INTO t VALUES (1);\n  INSERT INTO t VALUES (2);" : String) ≠ "") ∧
    (stmtLines dbPadded ("t") (["c"]) =
       ((splitNl ("INSERT INTO t VALUES (1);\n  INSERT INTO t VALUES (2);")).map strip).filter
         (fun l => l != "") ∧
     (∀ cs, run_sql_query dbPadded (columns_query ("t")) = some cs → cs ≠ "" →
       tableSection dbPadded ("t") = ruleLine ::
         bannerLine ("t") (rowCountStr (run_sql_query dbPadded (count_query ("t")))) ::
         ruleLine :: (stmtLines dbPadded ("t") (parseLines cs) ++ [""]))) :=
  ⟨⟨by decide, by decide⟩,
   C7_appended_stripped dbPadded ("t") (["c"])
     ("INSERT INTO t VALUES (1);\n  INSERT INTO t VALUES (2);") (by decide) (by decide)⟩

/-- C8: an included table whose columns query succeeded and whose
insert-statement round trip succeeds with empty output (the collaborator's
rendering of zero rows) gets a section that is exactly its three-line banner
immediately followed by one blank line, with no INSERT statements between
them. -/
theorem C8_zero_row_section (db : Oracle) (table cs e : String)
    (hc : run_sql_query db (columns_query table) = some cs) (hcs : cs ≠ "")
    (hz : db (insertQuery table (parseLines cs)) = some e) (he : strip e = "") :
    tableSection db table =
      [ruleLine, bannerLine table (rowCountStr (run_sql_query db (count_query table))),
       ruleLine, ""] := by
  have hsec := tableSection_eq db table cs hc hcs
  have hstmt : stmtLines db table (parseLines cs) = [] := by
    apply stmtLines_empty
    unfold generate_insert_statements
    rw [run_sql_query_some db _ e hz, he]
  rw [hsec, hstmt]
  rfl

/-- Witness for C8 at the zero-row oracle. -/
theorem C8_zero_row_section_witness :
    (run_sql_query dbZeroRows (columns_query ("t")) = some ("c") ∧ ("c" : String) ≠ "" ∧
     dbZeroRows (insertQuery ("t") (parseLines ("c"))) = some ("") ∧ strip ("") = "") ∧
    tableSection dbZeroRows ("t") =
      [ruleLine, bannerLine ("t") (rowCountStr (run_sql_query dbZeroRows (count_query ("t")))),
       ruleLine, ""] :=
  ⟨⟨by decide, by decide, by decide, by decide⟩,
   C8_zero_row_section dbZeroRows ("t") ("c") ("")
     (by decide) (by decide) (by decide) (by decide)⟩

/-- C9: for an included table (columns query truthy), the banner comment line
is always `"-- "` ++ uppercased table name ++ `" ("` ++ count ++ `" records)"`
with the count string defaulting to the literal `"0"` when the row-count query
fails; and the count result affects only that banner text — the emitted INSERT
statement lines depend only on the oracle's answer to the insert query, not on
its answer to the count query. -/
theorem C9_count_cosmetic (db : Oracle) (table cs : String)
    (hc : run_sql_query db (columns_query table) = some cs) (hcs : cs ≠ "") :
    (tableSection db table = ruleLine ::
        bannerLine table (rowCountStr (run_sql_query db (count_query table))) :: ruleLine ::
        (stmtLines db table (parseLines cs) ++ [""])) ∧
    (run_sql_query db (count_query table) = none →
      tableSection db table = ruleLine :: bannerLine table ("0") :: ruleLine ::
        (stmtLines db table (parseLines cs) ++ [""])) ∧
    (∀ cnt, bannerLine table cnt = "-- " ++ upper table ++ " (" ++ cnt ++ " records)") ∧
    (∀ db2 : Oracle,
      db2 (insertQuery table (parseLines cs)) = db (insertQuery table (parseLines cs)) →
      stmtLines db2 table (parseLines cs) = stmtLines db table (parseLines cs)) := by
  refine ⟨tableSection_eq db table cs hc hcs, ?_, fun cnt => rfl, ?_⟩
  · intro hcnt
    have hsec := tableSection_eq db table cs hc hcs
    rw [hcnt] at hsec
    exact hsec
  · intro db2 h2
    unfold stmtLines generate_insert_statements
    rw [run_agree db db2 _ h2]

/-- Witness for C9 at a concrete oracle whose count query fails. -/
theorem C9_count_cosmetic_witness :
    (run_sql_query dbTwoTables (columns_query ("alpha")) = some ("x") ∧
     ("x" : String) ≠ "") ∧
    ((tableSection dbTwoTables ("alpha") = ruleLine ::
        bannerLine ("alpha") (rowCountStr (run_sql_query dbTwoTables (count_query ("alpha")))) ::
        ruleLine :: (stmtLines dbTwoTables ("alpha") (parseLines ("x")) ++ [""])) ∧
     (run_sql_query dbTwoTables (count_query ("alpha")) = none →
       tableSection dbTwoTables ("alpha") = ruleLine :: bannerLine ("alpha") ("0") :: ruleLine ::
         (stmtLines dbTwoTables ("alpha") (parseLines ("x")) ++ [""])) ∧
     (∀ cnt, bannerLine ("alpha") cnt = "-- " ++ upper ("alpha") ++ " (" ++ cnt ++ " records)") ∧
     (∀ db2 : Oracle,
       db2 (insertQuery ("alpha") (parseLines ("x"))) =
         dbTwoTables (insertQuery ("alpha") (parseLines ("x"))) →
       stmtLines db2 ("alpha") (parseLines ("x")) =
         stmtLines dbTwoTables ("alpha") (parseLines ("x")))) :=
  ⟨⟨by decide, by decide⟩,
   C9_count_cosmetic dbTwoTables ("alpha") ("x") (by decide) (by decide)⟩

theorem char_lt_irrefl (a : Char) : ¬ a < a := fun h => Nat.lt_irrefl _ h

theorem list_char_lt_irrefl (l : List Char) : ¬ l < l := by
  induction l with
  | nil => intro h; cases h
  | cons a l ih =>
    intro h
    cases h with
    | cons h1 => exact ih h1
    | rel h1 => exact char_lt_irrefl a h1

/-- C1: in a run whose catalog query succeeds with a (sorted, as guaranteed by
its `ORDER BY table_name`) non-empty table list and whose per-table column
query succeeds with non-empty output for every non-excluded table, the written
dump is the header, then exactly one section per listed table other than
`sessions` — in the catalog's ascending lexical order, each table exactly once
(`count = 1` in the section list), each section being its banner (two rule
lines around the banner comment) plus its statement lines and trailing blank
line — then the footer; no section is generated for `sessions` (it is absent
from the processed list, so its banner is never emitted and its insert query
is never issued — statements are only ever appended from `tableSection` of
non-excluded tables). -/
theorem C1_sections_once_sorted (db : Oracle) (s : String)
    (hq : run_sql_query db tables_query = some s) (hs : s ≠ "")
    (hsort : (parseLines s).Sorted (fun a b : String => a.data < b.data))
    (hcols : ∀ t ∈ parseLines s, t ≠ exclName →
      truthy (run_sql_query db (columns_query t)) = true) :
    mainRun db = some (headerLines ++
      ((parseLines s).filter (fun u => u != exclName)).flatMap (tableSection db) ++
      footerLines) ∧
    ((parseLines s).filter (fun u => u != exclName)).Sorted (fun a b : String => a.data < b.data) ∧
    (∀ t ∈ parseLines s, t ≠ exclName →
      ((parseLines s).filter (fun u => u != exclName)).count t = 1) ∧
    exclName ∉ (parseLines s).filter (fun u => u != exclName) ∧
    (∀ t ∈ (parseLines s).filter (fun u => u != exclName),
      ∃ cnt stmts, tableSection db t =
        ruleLine :: bannerLine t cnt :: ruleLine :: (stmts ++ [""])) := by
  refine ⟨?_, ?_, ?_, ?_, ?_⟩
  · rw [mainRun_eq db s hq hs, processTables_eq_filter_flatMap]
  · exact hsort.filter _
  · intro t ht hne
    haveI hirr : IsIrrefl String (fun a b : String => a.data < b.data) :=
      ⟨fun a => list_char_lt_irrefl a.data⟩
    have hnd : ((parseLines s).filter (fun u => u != exclName)).Nodup :=
      List.Nodup.filter _ hsort.nodup
    have hmem : t ∈ (parseLines s).filter (fun u => u != exclName) :=
      List.mem_filter.mpr ⟨ht, by simp [bne_iff_ne, hne]⟩
    exact List.count_eq_one_of_mem hnd hmem
  · intro hmem
    have hb := (List.mem_filter.mp hmem).2
    simp [bne_iff_ne] at hb
  · intro t hmem
    obtain ⟨ht, hbne⟩ := List.mem_filter.mp hmem
    have hne : t ≠ exclName := by simpa [bne_iff_ne] using hbne
    obtain ⟨cs, hcse, hcsne⟩ := (truthy_some_iff _).mp (hcols t ht hne)
    exact ⟨_, _, tableSection_eq db t cs hcse hcsne⟩

/-- Witness for C1 at a two-table oracle (`alpha`, `beta`, both with a
column list). -/
theorem C1_sections_once_sorted_witness :
    (run_sql_query dbTwoTables tables_query = some ("alpha\nbeta") ∧
     ("alpha\nbeta" : String) ≠ "" ∧
     (parseLines ("alpha\nbeta")).Sorted (fun a b : String => a.data < b.data) ∧
     (∀ t ∈ parseLines ("alpha\nbeta"), t ≠ exclName →
       truthy (run_sql_query dbTwoTables (columns_query t)) = true)) ∧
    (mainRun dbTwoTables = some (headerLines ++
       ((parseLines ("alpha\nbeta")).filter (fun u => u != exclName)).flatMap
         (tableSection dbTwoTables) ++ footerLines) ∧
     ((parseLines ("alpha\nbeta")).filter (fun u => u != exclName)).Sorted
       (fun a b : String => a.data < b.data) ∧
     (∀ t ∈ parseLines ("alpha\nbeta"), t ≠ exclName →
       ((parseLines ("alpha\nbeta")).filter (fun u => u != exclName)).count t = 1) ∧
     exclName ∉ (parseLines ("alpha\nbeta")).filter (fun u => u != exclName) ∧
     (∀ t ∈ (parseLines ("alpha\nbeta")).filter (fun u => u != exclName),
       ∃ cnt stmts, tableSection dbTwoTables t =
         ruleLine :: bannerLine t cnt :: ruleLine :: (stmts ++ [""]))) :=
  ⟨⟨by decide, by decide, by decide, by decide⟩,
   C1_sections_once_sorted dbTwoTables ("alpha\nbeta")
     (by decide) (by decide) (by decide) (by decide)⟩
